import Mathlib

/-!
Verification of the delta-neutral yield pipeline in
src/server/src/helpers.ts of akash-secret-var-demo.

JS numbers are modelled as real numbers; the JS exponent operator on
non-integer exponents is modelled by Real.rpow. Functions that can throw
are embedded with an explicit Except channel. The one NaN source reached
by the claims is parseFloat of an unparsable string; that NaN is modelled
as the value none of Option Real inside a successful result.
-/

/-- Error kind named by the spec for arithmetic precondition violations
(non-positive price, non-positive redemption horizon, negative base with
fractional exponent). The source never raises it. -/
inductive CalcError
  | invalidArbRatio
deriving DecidableEq

/-- Failure modes of the quote-fetch response handlers.
quoteUnavailable models the thrown TypeError when the expected matching
record is absent (destructuring an empty filter result yields undefined
and the subsequent field access throws): the failure mode the spec names
QuoteUnavailable. malformedQuote is named by the spec for an unparsable
rate field; the source has no such branch and never produces it. -/
inductive FetchError
  | quoteUnavailable
  | malformedQuote
deriving DecidableEq

/-- Source calcArb (helpers.ts lines 24 to 26): redeemRate / price. -/
noncomputable def calcArb (redeemRate price : ℝ) : ℝ :=
  redeemRate / price

/-- Source calcAnnualizedArb (helpers.ts lines 28 to 30):
(arb ** (365 / DAYS_TO_REDEEM) - 1) * 100, with ** modelled by rpow. -/
noncomputable def calcAnnualizedArb (arb DAYS_TO_REDEEM : ℝ) : ℝ :=
  (arb ^ ((365 : ℝ) / DAYS_TO_REDEEM) - 1) * 100

/-- Source calcNetBorrowRate (helpers.ts lines 32 to 39):
borrowRate * collateralRatio - USDC_SUPPLY_RATE. The awaited result of
queryUsdcSupplyRate is the explicit third parameter, so the injected
supply rate is visible as an input. -/
noncomputable def calcNetBorrowRate
    (borrowRate collateralRatio USDC_SUPPLY_RATE : ℝ) : ℝ :=
  borrowRate * collateralRatio - USDC_SUPPLY_RATE

/-- Source calcNetDeltaNeutral (helpers.ts lines 41 to 47):
annualizedArb * collateralRatio - netBorrowRate. -/
noncomputable def calcNetDeltaNeutral
    (annualizedArb collateralRatio netBorrowRate : ℝ) : ℝ :=
  annualizedArb * collateralRatio - netBorrowRate

/-- Embedding of calcArb with its JS exception channel made explicit: the
body redeemRate / price contains no throw site (JS division never
throws), so every call returns normally. -/
noncomputable def calcArbE (redeemRate price : ℝ) : Except CalcError ℝ :=
  Except.ok (calcArb redeemRate price)

/-- Embedding of calcAnnualizedArb with its JS exception channel made
explicit: the body contains no throw site, so every call returns
normally. -/
noncomputable def calcAnnualizedArbE (arb DAYS_TO_REDEEM : ℝ) :
    Except CalcError ℝ :=
  Except.ok (calcAnnualizedArb arb DAYS_TO_REDEEM)

/-- Embedding of calcNetDeltaNeutral with its JS exception channel made
explicit: the body contains no throw site, so every call returns
normally. -/
noncomputable def calcNetDeltaNeutralE
    (annualizedArb collateralRatio netBorrowRate : ℝ) :
    Except CalcError ℝ :=
  Except.ok (calcNetDeltaNeutral annualizedArb collateralRatio netBorrowRate)

/-- Asset record shape of the convexity provider response: the source
reads the fields asset, borrow_apy and supply_apy, the rate fields being
string encoded. -/
structure AssetRecord where
  asset : String
  borrow_apy : String
  supply_apy : String
deriving DecidableEq

/-- Host-zone record shape of the stride provider response: the source
reads the string field redemption_rate of host_zone[0]. -/
structure HostZone where
  redemption_rate : String
deriving DecidableEq

/-- Stride provider response body: an object with a host_zone array. -/
structure StrideResponse where
  host_zone : List HostZone
deriving DecidableEq

/-- Helper for the parseFloat model: consume leading decimal digits,
returning the accumulated value, the number of digits consumed and the
remaining characters. -/
def takeDigitsAux (acc n : ℕ) : List Char → ℕ × ℕ × List Char
  | [] => (acc, n, [])
  | c :: cs =>
    if c.isDigit then takeDigitsAux (acc * 10 + (c.toNat - 48)) (n + 1) cs
    else (acc, n, c :: cs)

/-- Helper for the parseFloat model: apply a decimal exponent suffix to
the mantissa; an exponent marker with no digits is trailing garbage and
leaves the mantissa unchanged. -/
noncomputable def applyExp (mantissa : ℝ) (rest : List Char) : ℝ :=
  let se : ℤ × List Char :=
    match rest with
    | '-' :: r => (-1, r)
    | '+' :: r => (1, r)
    | _ => (1, rest)
  let ep := takeDigitsAux 0 0 se.2
  if ep.2.1 = 0 then mantissa
  else mantissa * (10 : ℝ) ^ (se.1 * (ep.1 : ℤ))

/-- Model of the JS builtin parseFloat as used by the source on string
rate fields: skip leading whitespace, take an optional sign, integer
digits, an optional fraction and an optional decimal exponent, ignoring
any trailing garbage. The result none models NaN, returned when no
numeric prefix exists at all. The special form Infinity is not modelled;
no claim evaluates it. -/
noncomputable def jsParseFloat (s : String) : Option ℝ :=
  let cs0 := s.data.dropWhile (fun c => c.isWhitespace)
  let sr : ℝ × List Char :=
    match cs0 with
    | '-' :: rest => (-1, rest)
    | '+' :: rest => (1, rest)
    | _ => (1, cs0)
  let ip := takeDigitsAux 0 0 sr.2
  let fp : ℕ × ℕ × List Char :=
    match ip.2.2 with
    | '.' :: rest => takeDigitsAux 0 0 rest
    | _ => (0, 0, ip.2.2)
  if ip.2.1 = 0 ∧ fp.2.1 = 0 then none
  else
    let mantissa : ℝ := sr.1 * ((ip.1 : ℝ) + (fp.1 : ℝ) / (10 : ℝ) ^ fp.2.1)
    match fp.2.2 with
    | 'e' :: rest => some (applyExp mantissa rest)
    | 'E' :: rest => some (applyExp mantissa rest)
    | _ => some mantissa

/-- Response callback of queryAtomUmeeHedge (helpers.ts lines 49 to 61):
filter res.data for asset ATOM, destructure the first match, return
parseFloat of its borrow_apy. An empty filter result leaves atom
undefined, so the borrow_apy access throws (quoteUnavailable); an
unparsable borrow_apy flows through parseFloat to a NaN returned as a
success. The axios transport around the callback is outside the
embedding; the argument is the decoded res.data array. -/
noncomputable def queryAtomUmeeHedge (data : List AssetRecord) :
    Except FetchError (Option ℝ) :=
  match (data.filter (fun x => x.asset == "ATOM")).head? with
  | none => Except.error FetchError.quoteUnavailable
  | some atom => Except.ok (jsParseFloat atom.borrow_apy)

/-- Response callback of queryUsdcSupplyRate (helpers.ts lines 63 to
75): same shape as queryAtomUmeeHedge with asset USDC and rate field
supply_apy. -/
noncomputable def queryUsdcSupplyRate (data : List AssetRecord) :
    Except FetchError (Option ℝ) :=
  match (data.filter (fun x => x.asset == "USDC")).head? with
  | none => Except.error FetchError.quoteUnavailable
  | some usdc => Except.ok (jsParseFloat usdc.supply_apy)

/-- Response callback of queryStAtomRedemptionRate (helpers.ts lines 77
to 86): read res.data.host_zone[0].redemption_rate through parseFloat.
An empty host_zone array makes host_zone[0] undefined, so the
redemption_rate access throws (quoteUnavailable). -/
noncomputable def queryStAtomRedemptionRate (res : StrideResponse) :
    Except FetchError (Option ℝ) :=
  match res.host_zone.head? with
  | none => Except.error FetchError.quoteUnavailable
  | some z => Except.ok (jsParseFloat z.redemption_rate)

/-- C1: with fixed inputs spotPrice = 1.0, redemptionRate = 1.02,
daysToRedeem = 30, borrowRate = 0.08, supplyRate = 0.02,
collateralRatio = 1.5, composing calcArb, then calcAnnualizedArb, then
calcNetBorrowRate with that supply rate, then calcNetDeltaNeutral yields
((1.02/1.0)^(365/30) - 1) * 100 * 1.5 - (0.08*1.5 - 0.02), exactly and
hence within 1e-9 relative tolerance. -/
theorem pipeline_fixture_correct :
    calcNetDeltaNeutral (calcAnnualizedArb (calcArb 1.02 1.0) 30) 1.5
        (calcNetBorrowRate 0.08 1.5 0.02)
      = ((1.02 / 1.0 : ℝ) ^ ((365 : ℝ) / 30) - 1) * 100 * 1.5
        - (0.08 * 1.5 - 0.02) ∧
    |calcNetDeltaNeutral (calcAnnualizedArb (calcArb 1.02 1.0) 30) 1.5
        (calcNetBorrowRate 0.08 1.5 0.02)
      - (((1.02 / 1.0 : ℝ) ^ ((365 : ℝ) / 30) - 1) * 100 * 1.5
        - (0.08 * 1.5 - 0.02))|
      ≤ 1e-9 * |((1.02 / 1.0 : ℝ) ^ ((365 : ℝ) / 30) - 1) * 100 * 1.5
        - (0.08 * 1.5 - 0.02)| := by
  refine ⟨rfl, ?_⟩
  simp only [calcArb, calcAnnualizedArb, calcNetBorrowRate,
    calcNetDeltaNeutral]
  rw [sub_self, abs_zero]
  positivity

/-- C2: calcAnnualizedArb arbRatio daysToRedeem equals
(arbRatio ^ (365 / daysToRedeem) - 1) * 100 for every arbRatio and every
daysToRedeem > 0, and calcAnnualizedArb 1.05 30 matches
(1.05 ^ (365/30) - 1) * 100 within 1e-9 relative tolerance. -/
theorem calcAnnualizedArb_formula :
    (∀ arbRatio daysToRedeem : ℝ, 0 < daysToRedeem →
        calcAnnualizedArb arbRatio daysToRedeem
          = (arbRatio ^ ((365 : ℝ) / daysToRedeem) - 1) * 100) ∧
    |calcAnnualizedArb 1.05 30 - ((1.05 : ℝ) ^ ((365 : ℝ) / 30) - 1) * 100|
      ≤ 1e-9 * |((1.05 : ℝ) ^ ((365 : ℝ) / 30) - 1) * 100| := by
  refine ⟨fun a d _ => rfl, ?_⟩
  simp only [calcAnnualizedArb]
  rw [sub_self, abs_zero]
  positivity

/-- Witness for C2 at arbRatio = 1.05, daysToRedeem = 30. -/
theorem calcAnnualizedArb_formula_witness :
    (0 : ℝ) < 30 ∧
    calcAnnualizedArb 1.05 30 = ((1.05 : ℝ) ^ ((365 : ℝ) / 30) - 1) * 100 :=
  ⟨by norm_num, calcAnnualizedArb_formula.1 1.05 30 (by norm_num)⟩

/-- C7: the four calculators are pure deterministic functions of their
inputs, the injected supply rate included: equal inputs give equal
outputs. -/
theorem calculators_deterministic :
    (∀ r1 r2 p1 p2 : ℝ, r1 = r2 → p1 = p2 →
        calcArb r1 p1 = calcArb r2 p2) ∧
    (∀ a1 a2 d1 d2 : ℝ, a1 = a2 → d1 = d2 →
        calcAnnualizedArb a1 d1 = calcAnnualizedArb a2 d2) ∧
    (∀ b1 b2 c1 c2 s1 s2 : ℝ, b1 = b2 → c1 = c2 → s1 = s2 →
        calcNetBorrowRate b1 c1 s1 = calcNetBorrowRate b2 c2 s2) ∧
    (∀ a1 a2 c1 c2 n1 n2 : ℝ, a1 = a2 → c1 = c2 → n1 = n2 →
        calcNetDeltaNeutral a1 c1 n1 = calcNetDeltaNeutral a2 c2 n2) := by
  refine ⟨?_, ?_, ?_, ?_⟩ <;> intros <;> subst_vars <;> rfl

/-- Witness for C7 at concrete inputs. -/
theorem calculators_deterministic_witness :
    calcArb 1.02 1.0 = calcArb 1.02 1.0 ∧
    calcAnnualizedArb 1.05 30 = calcAnnualizedArb 1.05 30 ∧
    calcNetBorrowRate 0.1 2 0.03 = calcNetBorrowRate 0.1 2 0.03 ∧
    calcNetDeltaNeutral 10 2 0.17 = calcNetDeltaNeutral 10 2 0.17 :=
  ⟨calculators_deterministic.1 1.02 1.02 1.0 1.0 rfl rfl,
   calculators_deterministic.2.1 1.05 1.05 30 30 rfl rfl,
   calculators_deterministic.2.2.1 0.1 0.1 2 2 0.03 0.03 rfl rfl rfl,
   calculators_deterministic.2.2.2 10 10 2 2 0.17 0.17 rfl rfl rfl⟩

/-- C8: for arbRatio = 1.0 and every daysToRedeem > 0, calcAnnualizedArb
returns exactly 0. -/
theorem calcAnnualizedArb_one (daysToRedeem : ℝ) (h : 0 < daysToRedeem) :
    calcAnnualizedArb 1 daysToRedeem = 0 := by
  simp [calcAnnualizedArb, Real.one_rpow]

/-- Witness for C8 at daysToRedeem = 30. -/
theorem calcAnnualizedArb_one_witness :
    (0 : ℝ) < 30 ∧ calcAnnualizedArb 1 30 = 0 :=
  ⟨by norm_num, calcAnnualizedArb_one 30 (by norm_num)⟩

/-- C9: calcNetBorrowRate with injected supply rate computes
borrowRate * collateralRatio - supplyRate, and at borrowRate = 0.10,
collateralRatio = 2.0, supplyRate = 0.03 it returns 0.17. -/
theorem calcNetBorrowRate_formula :
    (∀ borrowRate collateralRatio supplyRate : ℝ,
        calcNetBorrowRate borrowRate collateralRatio supplyRate
          = borrowRate * collateralRatio - supplyRate) ∧
    calcNetBorrowRate 0.10 2.0 0.03 = 0.17 := by
  refine ⟨fun _ _ _ => rfl, ?_⟩
  norm_num [calcNetBorrowRate]

/-- C10: calcArb, calcAnnualizedArb and calcNetDeltaNeutral are total
over all numeric inputs: their bodies contain no throw site, so every
call, spotPrice = 0, daysToRedeem = 0 or negative arbRatio included,
returns normally and no error channel exists at this interface. -/
theorem calculators_total :
    (∀ redeemRate price : ℝ,
        calcArbE redeemRate price = Except.ok (calcArb redeemRate price)) ∧
    (∀ arbRatio daysToRedeem : ℝ,
        calcAnnualizedArbE arbRatio daysToRedeem
          = Except.ok (calcAnnualizedArb arbRatio daysToRedeem)) ∧
    (∀ a c n : ℝ,
        calcNetDeltaNeutralE a c n
          = Except.ok (calcNetDeltaNeutral a c n)) :=
  ⟨fun _ _ => rfl, fun _ _ => rfl, fun _ _ _ => rfl⟩

/-- Counterexample to C3 as stated: at redemptionRate = 1.02 and the
non-positive spotPrice = -1, calcArb does not fail with invalidArbRatio;
it returns the numeric result 1.02 / (-1). -/
theorem calcArb_neg_price_no_error :
    calcArbE 1.02 (-1) = Except.ok ((1.02 : ℝ) / (-1)) ∧
    calcArbE 1.02 (-1) ≠ Except.error CalcError.invalidArbRatio ∧
    (-1 : ℝ) ≤ 0 :=
  ⟨rfl, fun h => Except.noConfusion h, by norm_num⟩

/-- C3 amended: calcArb performs no validation at all: it never raises
invalidArbRatio, and for every redemptionRate and every spotPrice < 0 it
returns the numeric value redemptionRate / spotPrice. At spotPrice = 0
JS division yields Infinity, again a returned value and not an error,
though outside this real-number embedding. -/
theorem calcArb_unguarded :
    (∀ redeemRate price : ℝ,
        calcArbE redeemRate price ≠ Except.error CalcError.invalidArbRatio) ∧
    (∀ redeemRate price : ℝ, price < 0 →
        calcArbE redeemRate price = Except.ok (redeemRate / price)) :=
  ⟨fun _ _ h => Except.noConfusion h, fun _ _ _ => rfl⟩

/-- Witness for the amended C3 at redemptionRate = 1.02, spotPrice = -2. -/
theorem calcArb_unguarded_witness :
    calcArbE 1.02 (-2) ≠ Except.error CalcError.invalidArbRatio ∧
    calcArbE 1.02 (-2) = Except.ok ((1.02 : ℝ) / (-2)) :=
  ⟨calcArb_unguarded.1 1.02 (-2), calcArb_unguarded.2 1.02 (-2) (by norm_num)⟩

/-- Counterexample to C4 as stated: at arbRatio = 1.05 and the
non-positive daysToRedeem = -30, calcAnnualizedArb does not fail with
invalidArbRatio; it returns a numeric result. -/
theorem calcAnnualizedArb_nonpos_days_no_error :
    calcAnnualizedArbE 1.05 (-30)
      = Except.ok (calcAnnualizedArb 1.05 (-30)) ∧
    calcAnnualizedArbE 1.05 (-30) ≠ Except.error CalcError.invalidArbRatio ∧
    (-30 : ℝ) ≤ 0 :=
  ⟨rfl, fun h => Except.noConfusion h, by norm_num⟩

/-- C4 amended: calcAnnualizedArb performs no validation at all: it
never raises invalidArbRatio, and for every arbRatio and every
daysToRedeem < 0 it still returns the numeric value
(arbRatio ^ (365 / daysToRedeem) - 1) * 100. For negative arbRatio with
a fractional exponent JS yields NaN, again returned silently and not an
error; daysToRedeem = 0 gives a JS infinite exponent, also returned, but
both lie outside this real-number embedding. -/
theorem calcAnnualizedArb_unguarded :
    (∀ arbRatio daysToRedeem : ℝ,
        calcAnnualizedArbE arbRatio daysToRedeem
          ≠ Except.error CalcError.invalidArbRatio) ∧
    (∀ arbRatio daysToRedeem : ℝ, daysToRedeem < 0 →
        calcAnnualizedArbE arbRatio daysToRedeem
          = Except.ok ((arbRatio ^ ((365 : ℝ) / daysToRedeem) - 1) * 100)) :=
  ⟨fun _ _ h => Except.noConfusion h, fun _ _ _ => rfl⟩

/-- Witness for the amended C4 at arbRatio = 1.05, daysToRedeem = -60. -/
theorem calcAnnualizedArb_unguarded_witness :
    calcAnnualizedArbE 1.05 (-60) ≠ Except.error CalcError.invalidArbRatio ∧
    calcAnnualizedArbE 1.05 (-60)
      = Except.ok (((1.05 : ℝ) ^ ((365 : ℝ) / (-60)) - 1) * 100) :=
  ⟨calcAnnualizedArb_unguarded.1 1.05 (-60),
   calcAnnualizedArb_unguarded.2 1.05 (-60) (by norm_num)⟩

/-- C5: when the response array holds no record with the target asset
symbol (and for the stride endpoint, when host_zone is empty), each
quote fetch fails with the quoteUnavailable failure mode and never
returns a value silently. -/
theorem quote_missing_record_fails :
    (∀ data : List AssetRecord, (∀ x ∈ data, x.asset ≠ "ATOM") →
        queryAtomUmeeHedge data = Except.error FetchError.quoteUnavailable) ∧
    (∀ data : List AssetRecord, (∀ x ∈ data, x.asset ≠ "USDC") →
        queryUsdcSupplyRate data = Except.error FetchError.quoteUnavailable) ∧
    (∀ res : StrideResponse, res.host_zone = [] →
        queryStAtomRedemptionRate res
          = Except.error FetchError.quoteUnavailable) := by
  refine ⟨fun data h => ?_, fun data h => ?_, fun res h => ?_⟩
  · have hf : data.filter (fun x => x.asset == "ATOM") = [] :=
      List.filter_eq_nil_iff.mpr (fun x hx => by simpa using h x hx)
    simp [queryAtomUmeeHedge, hf]
  · have hf : data.filter (fun x => x.asset == "USDC") = [] :=
      List.filter_eq_nil_iff.mpr (fun x hx => by simpa using h x hx)
    simp [queryUsdcSupplyRate, hf]
  · simp [queryStAtomRedemptionRate, h]

/-- Witness for C5: concrete responses without the target records. -/
theorem quote_missing_record_fails_witness :
    queryAtomUmeeHedge [⟨"USDC", "1.0", "2.0"⟩]
      = Except.error FetchError.quoteUnavailable ∧
    queryUsdcSupplyRate [⟨"ATOM", "1.0", "2.0"⟩]
      = Except.error FetchError.quoteUnavailable ∧
    queryStAtomRedemptionRate ⟨[]⟩
      = Except.error FetchError.quoteUnavailable :=
  ⟨quote_missing_record_fails.1 [⟨"USDC", "1.0", "2.0"⟩] (by decide),
   quote_missing_record_fails.2.1 [⟨"ATOM", "1.0", "2.0"⟩] (by decide),
   quote_missing_record_fails.2.2 ⟨[]⟩ rfl⟩

/-- Counterexample to C6 as stated: with the matching ATOM record
present but its borrow_apy field not parseable as a number, the fetch
does not fail with malformedQuote; it succeeds with parseFloat NaN. -/
theorem quote_bad_rate_no_error :
    queryAtomUmeeHedge [⟨"ATOM", "not a number", "0"⟩] = Except.ok none ∧
    queryAtomUmeeHedge [⟨"ATOM", "not a number", "0"⟩]
      ≠ Except.error FetchError.malformedQuote := by
  have h : queryAtomUmeeHedge [⟨"ATOM", "not a number", "0"⟩]
      = Except.ok none := rfl
  exact ⟨h, fun hc => Except.noConfusion (h.symm.trans hc)⟩

/-- C6 amended: when the matching record is present but its rate field
is not parseable as a number, the fetch silently returns the NaN that
parseFloat produces, wrapped as a success, and never produces the
malformedQuote error: no parse-failure branch exists in the source. -/
theorem quote_bad_rate_returns_nan :
    (∀ (data : List AssetRecord) (atom : AssetRecord)
        (rest : List AssetRecord),
        data.filter (fun x => x.asset == "ATOM") = atom :: rest →
        jsParseFloat atom.borrow_apy = none →
        queryAtomUmeeHedge data = Except.ok none) ∧
    (∀ (data : List AssetRecord) (usdc : AssetRecord)
        (rest : List AssetRecord),
        data.filter (fun x => x.asset == "USDC") = usdc :: rest →
        jsParseFloat usdc.supply_apy = none →
        queryUsdcSupplyRate data = Except.ok none) ∧
    (∀ data : List AssetRecord,
        queryAtomUmeeHedge data ≠ Except.error FetchError.malformedQuote) ∧
    (∀ data : List AssetRecord,
        queryUsdcSupplyRate data ≠ Except.error FetchError.malformedQuote) := by
  refine ⟨fun data r rest h1 h2 => ?_, fun data r rest h1 h2 => ?_,
    fun data => ?_, fun data => ?_⟩
  · simp [queryAtomUmeeHedge, h1, h2]
  · simp [queryUsdcSupplyRate, h1, h2]
  · unfold queryAtomUmeeHedge
    cases (data.filter (fun x => x.asset == "ATOM")).head? with
    | none => exact fun hc => FetchError.noConfusion (Except.error.inj hc)
    | some atom => exact fun hc => Except.noConfusion hc
  · unfold queryUsdcSupplyRate
    cases (data.filter (fun x => x.asset == "USDC")).head? with
    | none => exact fun hc => FetchError.noConfusion (Except.error.inj hc)
    | some usdc => exact fun hc => Except.noConfusion hc

/-- Witness for the amended C6 at concrete malformed responses. -/
theorem quote_bad_rate_returns_nan_witness :
    queryAtomUmeeHedge [⟨"ATOM", "oops", "0"⟩] = Except.ok none ∧
    queryUsdcSupplyRate [⟨"USDC", "0", "oops"⟩] = Except.ok none ∧
    queryAtomUmeeHedge [⟨"ATOM", "oops", "0"⟩]
      ≠ Except.error FetchError.malformedQuote ∧
    queryUsdcSupplyRate [⟨"USDC", "0", "oops"⟩]
      ≠ Except.error FetchError.malformedQuote :=
  ⟨quote_bad_rate_returns_nan.1 [⟨"ATOM", "oops", "0"⟩]
      ⟨"ATOM", "oops", "0"⟩ [] rfl rfl,
   quote_bad_rate_returns_nan.2.1 [⟨"USDC", "0", "oops"⟩]
      ⟨"USDC", "0", "oops"⟩ [] rfl rfl,
   quote_bad_rate_returns_nan.2.2.1 [⟨"ATOM", "oops", "0"⟩],
   quote_bad_rate_returns_nan.2.2.2 [⟨"USDC", "0", "oops"⟩]⟩
